import Mathlib

/-!
Shallow embedding of the MystArx/Project_1_TDS agent (src/agent.py and
src/api.py): the round-aware generation-and-publish orchestrator.

External collaborators (the generative text service, base64 decoding of
attachment payloads, UTF-8 decoding of bytes) are modelled as oracle
functions carried in an `Env` record; a call that raises a Python
exception is modelled as `Except.error ()`.  The GitHub remote is
modelled as an explicit `Gh` state (repositories, each a map from file
path to content plus a newest-first commit list); the REST content API
transports file content base64-encoded both ways, which is modelled as
the identity on the content strings.  Every external call made by a
function is recorded, in order, in a `List Call` trace.
-/

namespace TDS

/-- One entry of the `attachments` list of the task descriptor: a JSON object
with a `name` key (possibly absent, hence `Option`) and a data-URL `url`. -/
structure Attachment where
  name : Option String
  url : String
deriving Repr, DecidableEq

/-- The inbound task descriptor (a JSON object read with `dict.get`, so
every field is optional). -/
structure TaskData where
  task : Option String
  brief : Option String
  round : Option Int
  attachments : Option (List Attachment)
  secret : Option String
  evaluation_url : Option String
  email : Option String
  nonce : Option String
deriving Repr, DecidableEq

/-- The dict returned by a successful deployment
(`\x7b"repo_url": ..., "pages_url": ..., "commit_sha": ...\x7d`). -/
structure DeployInfo where
  repo_url : String
  pages_url : String
  commit_sha : String
deriving Repr, DecidableEq

/-- The outbound notification payload built in `run_the_build_process`
(src/api.py lines 69-77): exactly seven keys. -/
structure Payload where
  email : Option String
  task : Option String
  round : Option Int
  nonce : Option String
  repo_url : Option String
  commit_sha : Option String
  pages_url : Option String
deriving Repr, DecidableEq

/-- A commit of the remote repository: identifier and message. -/
structure Commit where
  sha : String
  message : String
deriving Repr, DecidableEq

/-- A file stored in the remote repository: its content and the blob
identifier the contents API reports for it (the `sha` key of a GET). -/
structure FileEntry where
  content : String
  blobSha : String
deriving Repr, DecidableEq

/-- One remote repository: named files and a newest-first commit list
(the order the commits API returns). -/
structure Repo where
  files : List (String × FileEntry)
  commits : List Commit
deriving Repr, DecidableEq

/-- The state of the GitHub remote: repositories by name, plus a
counter used to mint fresh blob and commit identifiers. -/
structure Gh where
  repos : List (String × Repo)
  fresh : Nat
deriving Repr, DecidableEq

/-- The external calls a run can make, recorded in order. -/
inductive Call where
  | llm (prompt : String)
  | ghCreate (name : String)
  | ghPut (repoName path message : String)
  | ghGet (repoName path : String)
  | ghListCommits (repoName : String)
  | ghPages (repoName : String)
  | notify (url : String) (payload : Payload)
deriving Repr, DecidableEq

/-- The fixed part of the world: collaborator oracles and the process
environment variables read at module load. -/
structure Env where
  llm : String → Except Unit String
  b64 : String → Except Unit (List Nat)
  utf8ignore : List Nat → String
  githubToken : Option String
  githubUsername : String
  appSecret : Option String
  pagesOk : Bool

/-- Replace the binding of `k` in an association list, or append it. -/
def updateAssoc {α : Type} : List (String × α) → String → α → List (String × α)
  | [], k, v => [(k, v)]
  | (k1, v1) :: t, k, v =>
      if k1 = k then (k, v) :: t else (k1, v1) :: updateAssoc t k v

/-- Look up a repository by name. -/
def Gh.getRepo (g : Gh) (name : String) : Option Repo :=
  g.repos.lookup name

/-- `POST /user/repos`: GitHub answers 422 when the name already exists
(the PyGithub call raises), otherwise creates an empty repository. -/
def ghCreateRepo (g : Gh) (name : String) : Except Unit Gh :=
  match g.getRepo name with
  | some _ => .error ()
  | none => .ok { g with repos := updateAssoc g.repos name ⟨[], []⟩ }

/-- `PUT /repos/:owner/:repo/contents/:path`: creating a new file must
carry no `sha`; updating an existing file must carry its current blob
`sha` (a stale one answers 409, a missing one 422); each successful
write creates one commit with the given message.  Non-2xx answers make
`raise_for_status` raise, modelled as `Except.error`. -/
def Gh.putFile (g : Gh) (repoName path content message : String)
    (sha : Option String) : Except Unit Gh :=
  match g.getRepo repoName with
  | none => .error ()
  | some r =>
    let entry : FileEntry := ⟨content, "blob" ++ toString g.fresh⟩
    let cm : Commit := ⟨"commit" ++ toString g.fresh, message⟩
    let write : Gh :=
      { repos := updateAssoc g.repos repoName
          ⟨updateAssoc r.files path entry, cm :: r.commits⟩,
        fresh := g.fresh + 1 }
    match r.files.lookup path, sha with
    | none, none => .ok write
    | none, some _ => .error ()
    | some _, none => .error ()
    | some old, some s => if s = old.blobSha then .ok write else .error ()

/-- `GET /repos/:owner/:repo/contents/:path`: 200 with content and blob
sha, or 404 (`none`). -/
def Gh.getFile (g : Gh) (repoName path : String) : Option FileEntry :=
  (g.getRepo repoName).bind fun r => r.files.lookup path

/-- The content of a remote file, when the repository and file exist. -/
def fileContent (g : Gh) (repoName path : String) : Option String :=
  (g.getFile repoName path).map (·.content)

/-- `commit_sha = commit_data[0]["sha"] if isinstance(commit_data, list)
and commit_data else "unknown"`: the commits API returns a JSON list
(newest first) for a repository with commits, and an error object (not a
list) for a missing or empty repository. -/
def latestCommitSha (g : Gh) (repoName : String) : String :=
  match g.getRepo repoName with
  | some r =>
    match r.commits with
    | c :: _ => c.sha
    | [] => "unknown"
  | none => "unknown"

/-- Python `str.strip()` whitespace test (ASCII part). -/
def isPySpace (c : Char) : Bool :=
  c = ' ' || c = '\t' || c = '\n' || c = '\r' || c = Char.ofNat 11 || c = Char.ofNat 12

/-- Python `str.strip()` on a character list. -/
def pyStripList (l : List Char) : List Char :=
  ((l.dropWhile isPySpace).reverse.dropWhile isPySpace).reverse

/-- First index at or after `i` where `pat` occurs in `l` (the head of
`l` is at absolute index `i`). -/
def findSubAux : List Char → List Char → Nat → Option Nat
  | [], pat, i => if pat.isPrefixOf ([] : List Char) then some i else none
  | c :: rest, pat, i =>
      if pat.isPrefixOf (c :: rest) then some i else findSubAux rest pat (i + 1)

/-- Python `s.find(pat, start)`: index of the first occurrence at or
after `start`, or `-1`. -/
def pyFind (l pat : List Char) (start : Nat) : Int :=
  match findSubAux (l.drop start) pat start with
  | some i => Int.ofNat i
  | none => -1

/-- Last index where `pat` occurs in `l`, head of `l` at index `i`. -/
def rfindSubAux : List Char → List Char → Nat → Option Nat
  | [], _, _ => none
  | c :: rest, pat, i =>
      match rfindSubAux rest pat (i + 1) with
      | some j => some j
      | none => if pat.isPrefixOf (c :: rest) then some i else none

/-- Python `s.rfind(pat)`: index of the last occurrence, or `-1`. -/
def pyRFind (l pat : List Char) : Int :=
  match rfindSubAux l pat 0 with
  | some i => Int.ofNat i
  | none => -1

/-- Python `pat in s`. -/
def containsSub (l pat : List Char) : Bool :=
  (findSubAux l pat 0).isSome

/-- The three-character fence `\x60\x60\x60` the source looks for. -/
def triBacktick : List Char := [Char.ofNat 96, Char.ofNat 96, Char.ofNat 96]

/-- `clean_llm_output` (src/agent.py lines 37-44): when a code fence is
present, slice from just after the newline following the first fence up
to the last fence and strip; otherwise strip the raw text. -/
def clean_llm_output (raw_text : String) : String :=
  let l := raw_text.toList
  if containsSub l triBacktick then
    let start_index : Int := pyFind l ['\n'] (pyFind l triBacktick 0).toNat + 1
    let end_index : Int := pyRFind l triBacktick
    if end_index > start_index then
      String.mk (pyStripList ((l.drop start_index.toNat).take (end_index - start_index).toNat))
    else
      String.mk (pyStripList l)
  else
    String.mk (pyStripList l)

/-- The extensions treated as text attachments in `generate_code`. -/
def textExts : List String := [".txt", ".html", ".md", ".json", ".csv"]

/-- Python `s.split(sep, 1)` unpacked into two names: `none` models the
ValueError raised when no separator is present. -/
def splitOnceComma (s : String) : Option (String × String) :=
  match findSubAux s.toList [','] 0 with
  | none => none
  | some i => some (String.mk (s.toList.take i), String.mk (s.toList.drop (i + 1)))

/-- One iteration of the attachment loop of `generate_code` (src/agent.py
lines 51-69): split the data URL, base64-decode, decode text attachments
with errors ignored, summarise binary ones; any exception is caught and
the attachment skipped (`none`). -/
def processAttachment (env : Env) (a : Attachment) : Option String :=
  match splitOnceComma a.url with
  | none => none
  | some (_, encoded_data) =>
    match env.b64 encoded_data with
    | .error _ => none
    | .ok binary_data =>
      let filename := a.name.getD "unknown"
      let decoded_content :=
        if textExts.any (fun e => filename.toLower.endsWith e) then
          env.utf8ignore binary_data
        else
          "[Binary file: " ++ filename ++ " (" ++ toString binary_data.length ++ " bytes)]"
      some ("\n\n**Attachment: \x60" ++ filename ++ "\x60**\n\x60\x60\x60\n"
            ++ decoded_content ++ "\n\x60\x60\x60")

/-- The `attachments_content` accumulator of `generate_code`. -/
def attachmentsContent (env : Env) (attachments : List Attachment) : String :=
  attachments.foldl
    (fun acc a =>
      match processAttachment env a with
      | some chunk => acc ++ chunk
      | none => acc)
    ""

/-- `if attachments:` guard around the loop (None and the empty list are
both falsy). -/
def codeAttachments (env : Env) (attachments : Option (List Attachment)) : String :=
  match attachments with
  | some l => if l.isEmpty then "" else attachmentsContent env l
  | none => ""

/-- The f-string prompt of `generate_code` (src/agent.py lines 72-77). -/
def codePrompt (brief attachments_content : String) : String :=
  "\nYou are an expert web developer. Create a single HTML file with inline CSS and JavaScript.\nProject Brief: "
  ++ brief ++ "\n" ++ attachments_content
  ++ "\nInstructions: Respond with ONLY the raw HTML code.\n"

/-- The fallback page returned when the generative call raises. -/
def codeFallback : String :=
  "<html><body>Error generating code. See logs.</body></html>"

/-- `generate_code` (src/agent.py lines 46-84): build the prompt, call
the model; on success return the cleaned text, on any exception return
the fixed fallback page.  Also returns the trace of external calls. -/
def generate_code (env : Env) (brief : String)
    (attachments : Option (List Attachment)) : String × List Call :=
  let prompt := codePrompt brief (codeAttachments env attachments)
  match env.llm prompt with
  | .ok t => (clean_llm_output t, [.llm prompt])
  | .error _ => (codeFallback, [.llm prompt])

/-- The f-string prompt of `generate_readme` (src/agent.py lines 90-95). -/
def readmePrompt (brief repo_name : String) : String :=
  "\nYou are a technical writer. Create a professional README.md for a project named \x27"
  ++ repo_name ++ "\x27.\nThe project brief is: " ++ brief
  ++ ".\nInclude sections for Title, Summary, Usage, and License (MIT).\nRespond with ONLY raw markdown content.\n"

/-- The fallback markdown returned when the generative call raises. -/
def readmeFallback (brief repo_name : String) : String :=
  "# " ++ repo_name ++ "\n\nThis project was generated based on the brief: " ++ brief

/-- `generate_readme` (src/agent.py lines 87-101). -/
def generate_readme (env : Env) (brief repo_name : String) : String × List Call :=
  let prompt := readmePrompt brief repo_name
  match env.llm prompt with
  | .ok t => (clean_llm_output t, [.llm prompt])
  | .error _ => (readmeFallback brief repo_name, [.llm prompt])

/-- The `license_content` string of src/agent.py lines 103-122.  (In the
source the right-hand side of the assignment sits on the following line; the
string literal itself is as below.) -/
def license_content : String :=
  "\nMIT License\nCopyright (c) 2025\nPermission is hereby granted, free of charge, to any person obtaining a copy\nof this software and associated documentation files (the \"Software\"), to deal\nin the Software without restriction, including without limitation the rights\nto use, copy, modify, merge, publish, distribute, sublicense, and/or sell\ncopies of the Software, and to permit persons to whom the Software is\nfurnished to do so, subject to the following conditions:\nThe above copyright notice and this permission notice shall be included in all\ncopies or substantial portions of the Software.\nTHE SOFTWARE IS PROVIDED \"AS IS\", WITHOUT WARRANTY OF ANY KIND, EXPRESS OR\nIMPLIED, INCLUDING BUT NOT LIMITED TO THE WARRANTIES OF MERCHANTABILITY,\nFITNESS FOR A PARTICULAR PURPOSE AND NONINFRINGEMENT. IN NO EVENT SHALL THE\nAUTHORS OR COPYRIGHT HOLDERS BE LIABLE FOR ANY CLAIM, DAMAGES OR OTHER\nLIABILITY, WHETHER IN AN ACTION OF CONTRACT, TORT OR OTHERWISE, ARISING FROM,\nOUT OF OR IN CONNECTION WITH THE SOFTWARE OR THE USE OR OTHER DEALINGS IN THE\nSOFTWARE.\n"

/-- The local staging tree written by `save_and_prepare_repo`. -/
def Workspace := List (String × String)

/-- `save_and_prepare_repo` (src/agent.py lines 124-138): recreate the
directory and write index.html (the given code), README.md (a fresh
`generate_readme` call) and LICENSE (an empty write followed by
`license_content`). -/
def save_and_prepare_repo (env : Env) (brief repo_name code : String) :
    Workspace × List Call :=
  let readmeT := generate_readme env brief repo_name
  ([("index.html", code), ("README.md", readmeT.1), ("LICENSE", "" ++ license_content)],
   readmeT.2)

/-- Result of a deployment function: the returned dict (or None), the
GitHub state it leaves behind, and the external calls it made. -/
structure DeployOut where
  result : Option DeployInfo
  gh : Gh
  trace : List Call
deriving Repr, DecidableEq

/-- `deploy_to_github` (src/agent.py lines 144-198).  Round 1: abort if
the token is falsy; regenerate code and readme; create the repository
(raises if it already exists); upload index.html, README.md and LICENSE
one PUT each, with messages "Add index.html", "Add README.md",
"Add LICENSE" (one commit per file, no comparison with any previous
content); POST the Pages enablement, a non-2xx answer only being logged;
read the latest commit sha; return the result dict.  Any exception ends
in the blanket handler, which returns None with the GitHub state as
already mutated. -/
def deploy_to_github (env : Env) (gh : Gh) (repo_dir repo_name brief : String)
    (attachments : Option (List Attachment)) : DeployOut :=
  if (env.githubToken.getD "") = "" then ⟨none, gh, []⟩
  else
    let codeT := generate_code env brief attachments
    let code := codeT.1
    let readmeT := generate_readme env brief repo_name
    let readme := readmeT.1
    let license_text := "MIT License"
    let t0 := codeT.2 ++ readmeT.2 ++ [Call.ghCreate repo_name]
    match ghCreateRepo gh repo_name with
    | .error _ => ⟨none, gh, t0⟩
    | .ok gh1 =>
      let repo_url := "https://github.com/" ++ env.githubUsername ++ "/" ++ repo_name
      let tA := t0 ++ [Call.ghPut repo_name "index.html" "Add index.html"]
      match gh1.putFile repo_name "index.html" code "Add index.html" none with
      | .error _ => ⟨none, gh1, tA⟩
      | .ok gh2 =>
        let tB := tA ++ [Call.ghPut repo_name "README.md" "Add README.md"]
        match gh2.putFile repo_name "README.md" readme "Add README.md" none with
        | .error _ => ⟨none, gh2, tB⟩
        | .ok gh3 =>
          let tC := tB ++ [Call.ghPut repo_name "LICENSE" "Add LICENSE"]
          match gh3.putFile repo_name "LICENSE" license_text "Add LICENSE" none with
          | .error _ => ⟨none, gh3, tC⟩
          | .ok gh4 =>
            let tD := tC ++ [Call.ghPages repo_name, Call.ghListCommits repo_name]
            let commit_sha := latestCommitSha gh4 repo_name
            let pages_url := "https://" ++ env.githubUsername ++ ".github.io/" ++ repo_name ++ "/"
            ⟨some ⟨repo_url, pages_url, commit_sha⟩, gh4, tD⟩

/-- The f-string revision prompt of `handle_revision_and_deploy`
(src/agent.py lines 227-236). -/
def revisionPrompt (old_code new_brief attachments_content : String) : String :=
  "\nYou are an expert web developer updating an existing web page.\nCurrent code:\n"
  ++ old_code ++ "\nChange request:\n" ++ new_brief
  ++ "\nAttachments:\n" ++ attachments_content
  ++ "\nRespond with ONLY the new, complete HTML code.\n"

/-- One iteration of the round-2 attachment loop (src/agent.py lines
218-225).  Unlike round 1 it indexes `attachment["name"]` directly, both
in the chunk f-string and in the log line of the exception handler, so a
missing name raises out of the handler and aborts the whole function
(`Except.error`); a decode failure with a name present is merely skipped
(`.ok none`). -/
def revAttachmentStep (env : Env) (a : Attachment) : Except Unit (Option String) :=
  match splitOnceComma a.url with
  | none =>
    (match a.name with
     | some _ => .ok none
     | none => .error ())
  | some (_, encoded_data) =>
    match env.b64 encoded_data with
    | .error _ =>
      (match a.name with
       | some _ => .ok none
       | none => .error ())
    | .ok bytes =>
      match a.name with
      | none => .error ()
      | some n =>
        .ok (some ("\n\n**Attachment: \x60" ++ n ++ "\x60**\n\x60\x60\x60\n"
                   ++ env.utf8ignore bytes ++ "\n\x60\x60\x60"))

/-- The `attachments_content` accumulator of the round-2 loop. -/
def revAttachmentsContent (env : Env) : List Attachment → Except Unit String
  | [] => .ok ""
  | a :: rest =>
    match revAttachmentStep env a with
    | .error _ => .error ()
    | .ok none => revAttachmentsContent env rest
    | .ok (some chunk) => (revAttachmentsContent env rest).map (fun s => chunk ++ s)

/-- `if attachments:` guard of the round-2 loop. -/
def revAttachments (env : Env) (attachments : Option (List Attachment)) :
    Except Unit String :=
  match attachments with
  | some l => if l.isEmpty then .ok "" else revAttachmentsContent env l
  | none => .ok ""

/-- `handle_revision_and_deploy` (src/agent.py lines 200-266).  Round 2:
abort if the token is falsy; GET index.html (`raise_for_status`, so a
404 aborts with None); build the revision prompt from the old code, the
new brief and the attachment content; call the model (an exception
aborts); regenerate the readme; PUT index.html with the fetched blob sha
and message "Apply Round 2 revisions"; GET README.md for its sha (None
when not 200); PUT README.md with message "Update README.md"; read the
latest commit sha; return the result dict.  LICENSE is never touched. -/
def handle_revision_and_deploy (env : Env) (gh : Gh)
    (repo_dir repo_name new_brief : String)
    (attachments : Option (List Attachment)) : DeployOut :=
  if (env.githubToken.getD "") = "" then ⟨none, gh, []⟩
  else
    let tG := [Call.ghGet repo_name "index.html"]
    match gh.getFile repo_name "index.html" with
    | none => ⟨none, gh, tG⟩
    | some old_data =>
      let old_code := old_data.content
      match revAttachments env attachments with
      | .error _ => ⟨none, gh, tG⟩
      | .ok attachments_content =>
        let rPrompt := revisionPrompt old_code new_brief attachments_content
        let tL := tG ++ [Call.llm rPrompt]
        match env.llm rPrompt with
        | .error _ => ⟨none, gh, tL⟩
        | .ok rawText =>
          let updated_code := clean_llm_output rawText
          let readmeT := generate_readme env new_brief repo_name
          let new_readme := readmeT.1
          let tP := tL ++ readmeT.2 ++ [Call.ghPut repo_name "index.html" "Apply Round 2 revisions"]
          match gh.putFile repo_name "index.html" updated_code "Apply Round 2 revisions"
              (some old_data.blobSha) with
          | .error _ => ⟨none, gh, tP⟩
          | .ok gh1 =>
            let readme_sha := (gh1.getFile repo_name "README.md").map (·.blobSha)
            let tQ := tP ++ [Call.ghGet repo_name "README.md",
                             Call.ghPut repo_name "README.md" "Update README.md"]
            match gh1.putFile repo_name "README.md" new_readme "Update README.md" readme_sha with
            | .error _ => ⟨none, gh1, tQ⟩
            | .ok gh2 =>
              let tF := tQ ++ [Call.ghListCommits repo_name]
              let commit_sha := latestCommitSha gh2 repo_name
              ⟨some ⟨"https://github.com/" ++ env.githubUsername ++ "/" ++ repo_name,
                     "https://" ++ env.githubUsername ++ ".github.io/" ++ repo_name ++ "/",
                     commit_sha⟩, gh2, tF⟩

/-- Python truthiness of an optional string (`not x` for a `dict.get`
result: None and the empty string are falsy). -/
def strFalsy (o : Option String) : Bool :=
  (o.getD "") = ""

/-- The notification payload dict built in src/api.py lines 69-77: the
raw `email`, `task`, `round` and `nonce` values of the descriptor (note:
`task_data.get("round")`, with no default), plus the three Deploy Result
fields. -/
def buildNotification (td : TaskData) (di : DeployInfo) : Payload :=
  ⟨td.email, td.task, td.round, td.nonce,
   some di.repo_url, some di.commit_sha, some di.pages_url⟩

/-- The final notification block of `run_the_build_process` (src/api.py
lines 65-88): POST the payload only when a deploy result exists and
`evaluation_url` is truthy. -/
def finalNotify (td : TaskData) (deploy_info : Option DeployInfo) :
    Option (String × Payload) :=
  match deploy_info with
  | none => none
  | some di =>
    match td.evaluation_url with
    | none => none
    | some url => if url = "" then none else some (url, buildNotification td di)

/-- Outcome of one orchestration run: the deploy result (None on
failure), the notification payload POSTed (None when none was sent), the
GitHub state left behind, and the trace of external calls. -/
structure RunOut where
  deploy : Option DeployInfo
  notified : Option Payload
  gh : Gh
  trace : List Call
deriving Repr, DecidableEq

/-- `run_the_build_process` (src/api.py lines 23-91).  Round defaults to
1; missing task or brief aborts before any external call.  Round 1:
`generate_code`; when the result is truthy, `save_and_prepare_repo`
(one more generator call) and then the source invokes
`deploy_to_github(local_repo_path, repo_name)` with only two arguments,
omitting the required positional `brief` — Python raises TypeError,
the surrounding blanket `except` catches it, and the run ends with no
deploy and no notification; `deploy_to_github` itself is never entered.
Round 2: the secret must be truthy and equal to APP_SECRET, else the run
aborts with no external call; then `handle_revision_and_deploy` is
called with the brief of the descriptor and WITHOUT the attachments argument
(src/api.py line 58), so attachments default to None.  Unknown rounds
abort.  Afterwards, a notification is POSTed when a deploy result exists
and `evaluation_url` is truthy. -/
def run_the_build_process (env : Env) (gh : Gh) (td : TaskData) : RunOut :=
  let round_number : Int := td.round.getD 1
  if strFalsy td.task || strFalsy td.brief then ⟨none, none, gh, []⟩
  else
    let repo_name := td.task.getD ""
    let brief := td.brief.getD ""
    if round_number = 1 then
      let gcodeT := generate_code env brief td.attachments
      let generated_html := gcodeT.1
      if generated_html = "" then ⟨none, none, gh, gcodeT.2⟩
      else
        ⟨none, none, gh,
         gcodeT.2 ++ (save_and_prepare_repo env brief repo_name generated_html).2⟩
    else if round_number = 2 then
      if strFalsy td.secret then ⟨none, none, gh, []⟩
      else if td.secret ≠ env.appSecret then ⟨none, none, gh, []⟩
      else
        let d := handle_revision_and_deploy env gh ("output/" ++ repo_name) repo_name brief none
        match finalNotify td d.result with
        | some up => ⟨d.result, some up.2, d.gh, d.trace ++ [Call.notify up.1 up.2]⟩
        | none => ⟨d.result, none, d.gh, d.trace⟩
    else ⟨none, none, gh, []⟩

/-- The messages of the repository-write calls in a trace, in order. -/
def putMessages (tr : List Call) : List String :=
  tr.filterMap fun c =>
    match c with
    | .ghPut _ _ m => some m
    | _ => none

/-- Whether a call is a content fetch. -/
def isGetCall : Call → Bool
  | .ghGet _ _ => true
  | _ => false

/-- Whether a call writes the given path. -/
def putsPath (p : String) : Call → Bool
  | .ghPut _ p2 _ => p2 = p
  | _ => false

/-- A benign world: the generative service always answers a fixed page,
credentials are configured, Pages enablement succeeds. -/
def envOk : Env where
  llm := fun _ => .ok "<html><body>hi</body></html>"
  b64 := fun _ => .ok []
  utf8ignore := fun _ => ""
  githubToken := some "tok"
  githubUsername := "user"
  appSecret := some "s3cret"
  pagesOk := true

/-- A world whose generative service always raises. -/
def envErr : Env where
  llm := fun _ => .error ()
  b64 := fun _ => .ok []
  utf8ignore := fun _ => ""
  githubToken := some "tok"
  githubUsername := "user"
  appSecret := some "s3cret"
  pagesOk := true

/-- A world whose generative service raises exactly on the readme prompt
for brief "change the button color" and repository "demo-app", and
answers "NEW" otherwise. -/
def envReadmeFail : Env where
  llm := fun p =>
    if p = readmePrompt "change the button color" "demo-app" then .error ()
    else .ok "NEW"
  b64 := fun _ => .ok []
  utf8ignore := fun _ => ""
  githubToken := some "tok"
  githubUsername := "user"
  appSecret := some "s3cret"
  pagesOk := true

/-- A world whose generative service answers the empty string. -/
def envEmptyOut : Env where
  llm := fun _ => .ok ""
  b64 := fun _ => .ok []
  utf8ignore := fun _ => ""
  githubToken := some "tok"
  githubUsername := "user"
  appSecret := some "s3cret"
  pagesOk := true

/-- The empty GitHub remote. -/
def gh0 : Gh := ⟨[], 0⟩

/-- A remote that already holds repository "demo-app" with a published
index.html ("OLD") and one commit. -/
def ghR : Gh :=
  ⟨[("demo-app", ⟨[("index.html", ⟨"OLD", "b0"⟩)], [⟨"c0", "init"⟩]⟩)], 0⟩

/-- A valid round-1 task descriptor. -/
def td1 : TaskData :=
  ⟨some "demo-app", some "a single button that shows an alert", some 1, none,
   none, some "http://eval.example/notify", some "me@example.com", some "n1"⟩

/-- A round-2 task descriptor with a wrong secret. -/
def tdWrong : TaskData :=
  ⟨some "demo-app", some "change it", some 2, none,
   some "wrong", some "http://eval.example/notify", none, none⟩

/-- A valid round-2 task descriptor (correct secret, callback present). -/
def tdR2 : TaskData :=
  ⟨some "demo-app", some "change it", some 2, none,
   some "s3cret", some "http://eval.example/notify", some "me@example.com", some "n2"⟩

/-- A round-2 descriptor whose generative request is the readme-failure
one, without callback. -/
def tdC4 : TaskData :=
  ⟨some "demo-app", some "change the button color", some 2, none,
   some "s3cret", none, none, none⟩

/-- A text attachment carried by a data URL ("hi" in base64). -/
def att1 : Attachment := ⟨some "a.txt", "data:text/plain;base64,aGk="⟩

/-- tdR2 with an attachment list added. -/
def tdR2att : TaskData := { tdR2 with attachments := some [att1] }

/-- The first round-1 deployment against the empty remote. -/
def dep1 : DeployOut :=
  deploy_to_github envOk gh0 "output/demo-app" "demo-app" "a brief" none

/-- A second, byte-identical round-1 deployment run after the first. -/
def dep2 : DeployOut :=
  deploy_to_github envOk dep1.gh "output/demo-app" "demo-app" "a brief" none

/-- A benign world in which Pages enablement fails. -/
def envPagesFail : Env := { envOk with pagesOk := false }

/-- The notification payload the benign round-2 run over `ghR` and
`tdR2` posts. -/
def payloadR2 : Payload :=
  ⟨some "me@example.com", some "demo-app", some 2, some "n2",
   some "https://github.com/user/demo-app", some "commit1",
   some "https://user.github.io/demo-app/"⟩

/-! Helper lemmas about the embedded operations. -/

theorem generate_code_trace (env : Env) (b : String) (a : Option (List Attachment)) :
    (generate_code env b a).2 = [Call.llm (codePrompt b (codeAttachments env a))] := by
  cases h : env.llm (codePrompt b (codeAttachments env a)) <;>
    simp [generate_code, h]

theorem generate_readme_trace (env : Env) (b n : String) :
    (generate_readme env b n).2 = [Call.llm (readmePrompt b n)] := by
  cases h : env.llm (readmePrompt b n) <;> simp [generate_readme, h]

theorem lookup_updateAssoc_self {α : Type} (l : List (String × α)) (k : String) (v : α) :
    (updateAssoc l k v).lookup k = some v := by
  induction l with
  | nil => simp [updateAssoc, List.lookup]
  | cons p t ih =>
    obtain ⟨k1, v1⟩ := p
    by_cases hk : k1 = k
    · simp [updateAssoc, hk, List.lookup]
    · have hb : (k == k1) = false := beq_eq_false_iff_ne.mpr (fun hh => hk hh.symm)
      simp [updateAssoc, hk, List.lookup, hb, ih]

theorem lookup_updateAssoc_ne {α : Type} (l : List (String × α)) (k k2 : String) (v : α)
    (h : k2 ≠ k) : (updateAssoc l k v).lookup k2 = l.lookup k2 := by
  induction l with
  | nil =>
    have hb : (k2 == k) = false := beq_eq_false_iff_ne.mpr h
    simp [updateAssoc, List.lookup, hb]
  | cons p t ih =>
    obtain ⟨k1, v1⟩ := p
    by_cases hk : k1 = k
    · subst hk
      have hb : (k2 == k1) = false := beq_eq_false_iff_ne.mpr h
      simp [updateAssoc, List.lookup, hb]
    · cases hb : (k2 == k1) <;> simp [updateAssoc, hk, List.lookup, hb, ih]

/-! Settled claims. -/

/-- C1: the claim says a successful round-1 run publishes, under the
fixed entry-point name, exactly the markup the generator returned, with a
resolving commit identifier.  The code cannot exhibit such a run: the
orchestrator invokes the deployer without its required `brief` argument
(src/api.py line 46), so every round-1 run dies in the blanket exception
handler — even in a fully benign world the run produces no deploy
result, sends no notification and leaves the remote untouched — while
the deployer itself, invoked with all its arguments, does publish
byte-identical content, which shows the claim describes the intended
behaviour. -/
theorem c1_round1_arity_bug :
    (run_the_build_process envOk gh0 td1).deploy = none ∧
    (run_the_build_process envOk gh0 td1).notified = none ∧
    (run_the_build_process envOk gh0 td1).gh = gh0 ∧
    (deploy_to_github envOk gh0 "output/demo-app" "demo-app"
        "a single button that shows an alert" none).result.isSome = true ∧
    fileContent (deploy_to_github envOk gh0 "output/demo-app" "demo-app"
        "a single button that shows an alert" none).gh "demo-app" "index.html"
      = some (generate_code envOk "a single button that shows an alert" none).1 :=
  ⟨rfl, rfl, rfl, rfl, rfl⟩

/-- C3: a round-2 task descriptor whose secret is absent or differs from
the configured secret makes the run fail with no external call at all:
no generator, transport or notifier call, no state change, no deploy
result, no notification. -/
theorem c3_wrong_secret_no_external_calls (env : Env) (gh : Gh) (td : TaskData)
    (h2 : td.round = some 2)
    (hs : td.secret = none ∨ td.secret ≠ env.appSecret) :
    run_the_build_process env gh td = ⟨none, none, gh, []⟩ := by
  unfold run_the_build_process
  rw [h2]
  by_cases ht : (strFalsy td.task || strFalsy td.brief) = true
  · simp [ht]
  · rw [if_neg (by simpa using ht)]
    have hr1 : ¬((some (2 : Int)).getD 1 = 1) := by decide
    rw [if_neg hr1, if_pos (by decide : ((some (2 : Int)).getD 1 = 2))]
    rcases hs with hnone | hne
    · rw [hnone]; simp [strFalsy]
    · by_cases hf : strFalsy td.secret = true
      · simp [hf]
      · rw [if_neg (by simpa using hf), if_pos hne]

/-- Witness for C3 at a concrete wrong-secret descriptor. -/
theorem c3_wrong_secret_witness :
    run_the_build_process envOk ghR tdWrong = ⟨none, none, ghR, []⟩ :=
  c3_wrong_secret_no_external_calls envOk ghR tdWrong rfl (Or.inr (by decide))

/-- C2 counterexample: running round 1 twice with byte-identical
generated content does not produce exactly one commit with the second
run reusing its identifier — the first deployment alone creates three
commits (one per uploaded file), and the second deployment fails at
repository creation, returning no Deploy Result and leaving the remote
as the first run left it. -/
theorem c2_rerun_counterexample :
    dep1.result.isSome = true ∧
    ((dep1.gh.getRepo "demo-app").map fun r => r.commits.length) = some 3 ∧
    dep2.result = none ∧
    dep2.gh = dep1.gh :=
  ⟨rfl, rfl, rfl, rfl⟩

/-- C2 amended: there is no idempotence handling — when the repository
already exists, a round-1 deployment fails at repository creation (the
create call raises 422), returns no Deploy Result, changes nothing, and
at no point fetches previously published content for comparison. -/
theorem c2_amended_rerun_fails (env : Env) (gh : Gh) (dir name brief : String)
    (att : Option (List Attachment)) (h : (gh.getRepo name).isSome = true) :
    (deploy_to_github env gh dir name brief att).result = none ∧
    (deploy_to_github env gh dir name brief att).gh = gh ∧
    ((deploy_to_github env gh dir name brief att).trace.all fun c => !isGetCall c) = true := by
  obtain ⟨r, hr⟩ := Option.isSome_iff_exists.mp h
  have hc : ghCreateRepo gh name = .error () := by
    unfold ghCreateRepo; rw [hr]
  simp only [deploy_to_github, hc]
  split
  · exact ⟨rfl, rfl, rfl⟩
  · refine ⟨rfl, rfl, ?_⟩
    simp [generate_code_trace, generate_readme_trace, isGetCall, List.all_append]

/-- Witness for the amended C2 at a concrete occupied remote. -/
theorem c2_rerun_witness :
    (deploy_to_github envOk ghR "output/demo-app" "demo-app" "a brief" none).result = none ∧
    (deploy_to_github envOk ghR "output/demo-app" "demo-app" "a brief" none).gh = ghR ∧
    ((deploy_to_github envOk ghR "output/demo-app" "demo-app" "a brief" none).trace.all
        fun c => !isGetCall c) = true :=
  c2_amended_rerun_fails envOk ghR "output/demo-app" "demo-app" "a brief" none rfl

/-- C6 counterexample: a successful round-1 publish with three commits
whose messages are the per-file "Add ..." messages; none of them is
"Initial commit via AI agent". -/
theorem c6_message_counterexample :
    dep1.result.isSome = true ∧
    (dep1.gh.getRepo "demo-app").map (fun r => r.commits.map (fun c => c.message)) =
      some ["Add LICENSE", "Add README.md", "Add index.html"] ∧
    (dep1.gh.getRepo "demo-app").map (fun r =>
        (r.commits.map (fun c => c.message)).contains "Initial commit via AI agent") =
      some false :=
  ⟨rfl, rfl, rfl⟩

/-- C6 amended: a successful round-1 publish commits each file with its
own message — "Add index.html", "Add README.md", "Add LICENSE" — and a
successful round-2 publish uses "Apply Round 2 revisions" for the markup
document and "Update README.md" for the descriptive document. -/
theorem c6_amended_commit_messages (env : Env) (gh : Gh) (dir name brief : String)
    (att att2 : Option (List Attachment)) :
    ((deploy_to_github env gh dir name brief att).result.isSome = true →
      putMessages (deploy_to_github env gh dir name brief att).trace =
        ["Add index.html", "Add README.md", "Add LICENSE"]) ∧
    ((handle_revision_and_deploy env gh dir name brief att2).result.isSome = true →
      putMessages (handle_revision_and_deploy env gh dir name brief att2).trace =
        ["Apply Round 2 revisions", "Update README.md"]) := by
  constructor
  · simp only [deploy_to_github]
    split
    · intro h; simp at h
    · split
      · intro h; simp at h
      · split
        · intro h; simp at h
        · split
          · intro h; simp at h
          · split
            · intro h; simp at h
            · intro _
              simp [putMessages, generate_code_trace, generate_readme_trace,
                    List.filterMap_append]
  · simp only [handle_revision_and_deploy]
    split
    · intro h; simp at h
    · split
      · intro h; simp at h
      · split
        · intro h; simp at h
        · split
          · intro h; simp at h
          · split
            · intro h; simp at h
            · split
              · intro h; simp at h
              · intro _
                simp [putMessages, generate_readme_trace, List.filterMap_append]

/-- Witness for the amended C6: both publishes succeed concretely and
carry exactly those messages. -/
theorem c6_message_witness :
    putMessages dep1.trace = ["Add index.html", "Add README.md", "Add LICENSE"] ∧
    putMessages (handle_revision_and_deploy envOk ghR "output/demo-app" "demo-app"
        "change it" none).trace = ["Apply Round 2 revisions", "Update README.md"] :=
  ⟨(c6_amended_commit_messages envOk gh0 "output/demo-app" "demo-app" "a brief" none none).1 rfl,
   (c6_amended_commit_messages envOk ghR "output/demo-app" "demo-app" "change it" none none).2 rfl⟩

set_option maxRecDepth 40000 in
/-- C4 counterexample: a round-2 run in which a generative-service call
fails (the readme call raises) yet the round does not abort — commits
are made (three commits on the remote afterwards) and a Deploy Result is
produced, because `generate_readme` masks the failure with a fallback
string. -/
theorem c4_generation_failure_counterexample :
    envReadmeFail.llm (readmePrompt "change the button color" "demo-app") = .error () ∧
    (run_the_build_process envReadmeFail ghR tdC4).deploy.isSome = true ∧
    ((run_the_build_process envReadmeFail ghR tdC4).gh.getRepo "demo-app").map
        (fun r => r.commits.length) = some 3 := by
  refine ⟨by simp [envReadmeFail], rfl, rfl⟩

/-- C4 amended: only a failure of the round-2 markup-revision call makes
the round abort with no commit attempted and no Deploy Result (the
remote is left unchanged); failures inside `generate_code` and
`generate_readme` are replaced by fallback content and do not abort. -/
theorem c4_amended_revision_failure_aborts (env : Env) (gh : Gh)
    (dir name brief : String) (fe : FileEntry)
    (htok : (env.githubToken.getD "") ≠ "")
    (hfe : gh.getFile name "index.html" = some fe)
    (hllm : env.llm (revisionPrompt fe.content brief "") = .error ()) :
    handle_revision_and_deploy env gh dir name brief none =
      ⟨none, gh, [Call.ghGet name "index.html",
                  Call.llm (revisionPrompt fe.content brief "")]⟩ := by
  simp only [handle_revision_and_deploy]
  rw [if_neg htok, hfe]
  simp only [revAttachments]
  rw [hllm]
  rfl

/-- Witness for the amended C4: a concrete revision run whose markup
call raises ends with no deploy, an unchanged remote, and only the fetch
and the failed model call in its trace. -/
theorem c4_amended_witness :
    handle_revision_and_deploy envErr ghR "output/demo-app" "demo-app" "b" none =
      ⟨none, ghR, [Call.ghGet "demo-app" "index.html",
                   Call.llm (revisionPrompt "OLD" "b" "")]⟩ :=
  c4_amended_revision_failure_aborts envErr ghR "output/demo-app" "demo-app" "b"
    ⟨"OLD", "b0"⟩ (by decide) rfl rfl

/-- C10 counterexample: when the generative service succeeds but returns
empty text, both generators hand their caller the empty string, so the
caller is not guaranteed a non-empty string. -/
theorem c10_empty_output_counterexample :
    (generate_code envEmptyOut "some brief" none).1 = "" ∧
    (generate_readme envEmptyOut "some brief" "demo-app").1 = "" :=
  ⟨rfl, rfl⟩

/-- C10 amended: `generate_code` and `generate_readme` never propagate a
generative-service exception — a raising call yields the fixed fallback
page, respectively the fallback markdown built from the repository name
and brief, and both fallbacks are non-empty; a successful call, however,
yields the cleaned service output, which may be empty. -/
theorem c10_amended_generator_fallbacks (env : Env) (brief repo_name : String)
    (att : Option (List Attachment)) :
    ((env.llm (codePrompt brief (codeAttachments env att)) = .error () →
      (generate_code env brief att).1 = codeFallback)) ∧
    ((env.llm (readmePrompt brief repo_name) = .error () →
      (generate_readme env brief repo_name).1 = readmeFallback brief repo_name)) ∧
    0 < codeFallback.length ∧ 0 < (readmeFallback brief repo_name).length := by
  refine ⟨?_, ?_, by decide, ?_⟩
  · intro h; simp [generate_code, h]
  · intro h; simp [generate_readme, h]
  · have h2 : ("# " : String).length = 2 := rfl
    simp [readmeFallback, String.length_append]
    omega

/-- Witness for the amended C10: with an always-raising service both
generators return their fallbacks. -/
theorem c10_amended_witness :
    (generate_code envErr "b" none).1 = codeFallback ∧
    (generate_readme envErr "b" "demo-app").1 = readmeFallback "b" "demo-app" :=
  ⟨(c10_amended_generator_fallbacks envErr "b" "demo-app" none).1 rfl,
   (c10_amended_generator_fallbacks envErr "b" "demo-app" none).2.1 rfl⟩

theorem putFile_ok_shape (g g2 : Gh) (n p c m : String) (s : Option String)
    (hok : g.putFile n p c m s = .ok g2) :
    ∃ r : Repo, g.getRepo n = some r ∧
      g2 = ⟨updateAssoc g.repos n
              ⟨updateAssoc r.files p ⟨c, "blob" ++ toString g.fresh⟩,
               ⟨"commit" ++ toString g.fresh, m⟩ :: r.commits⟩,
            g.fresh + 1⟩ := by
  unfold Gh.putFile at hok
  split at hok
  · exact absurd hok (by simp)
  · rename_i r hr
    split at hok
    · rename_i h1 h2
      refine ⟨r, hr, ?_⟩
      simpa using hok.symm
    · exact absurd hok (by simp)
    · exact absurd hok (by simp)
    · rename_i old s1 h1 h2
      split at hok
      · refine ⟨r, hr, ?_⟩
        simpa using hok.symm
      · exact absurd hok (by simp)

theorem putFile_preserves_other (g g2 : Gh) (n p c m : String) (s : Option String)
    (hok : g.putFile n p c m s = .ok g2) (rn p2 : String) (hp : p2 ≠ p) :
    g2.getFile rn p2 = g.getFile rn p2 := by
  obtain ⟨r, hg, hw⟩ := putFile_ok_shape g g2 n p c m s hok
  subst hw
  unfold Gh.getFile Gh.getRepo
  by_cases hrn : rn = n
  · subst hrn
    unfold Gh.getRepo at hg
    rw [lookup_updateAssoc_self, hg]
    simp [lookup_updateAssoc_ne _ _ _ _ hp]
  · rw [lookup_updateAssoc_ne _ _ _ _ hrn]

theorem putFile_new_ex (g : Gh) (n p c m : String) (r : Repo)
    (hg : g.getRepo n = some r) (hp : r.files.lookup p = none) :
    ∃ g2, g.putFile n p c m none = .ok g2 ∧
      g2.getRepo n = some ⟨updateAssoc r.files p ⟨c, "blob" ++ toString g.fresh⟩,
                           ⟨"commit" ++ toString g.fresh, m⟩ :: r.commits⟩ := by
  refine ⟨⟨updateAssoc g.repos n
            ⟨updateAssoc r.files p ⟨c, "blob" ++ toString g.fresh⟩,
             ⟨"commit" ++ toString g.fresh, m⟩ :: r.commits⟩, g.fresh + 1⟩, ?_, ?_⟩
  · simp only [Gh.putFile, hg, hp]
  · unfold Gh.getRepo
    exact lookup_updateAssoc_self _ _ _

/-- C8: a round-2 publish never writes the license document — for every
repository, the LICENSE content on the remote after
`handle_revision_and_deploy` is exactly what it was before, and no write
call of the run targets the LICENSE path (only index.html and README.md
are written). -/
theorem c8_license_never_touched (env : Env) (gh : Gh) (dir name brief : String)
    (att : Option (List Attachment)) :
    (∀ rn, fileContent (handle_revision_and_deploy env gh dir name brief att).gh rn "LICENSE"
        = fileContent gh rn "LICENSE") ∧
    ((handle_revision_and_deploy env gh dir name brief att).trace.all
        (fun c => !putsPath "LICENSE" c)) = true := by
  simp only [handle_revision_and_deploy]
  by_cases htok : (env.githubToken.getD "") = ""
  · rw [if_pos htok]
    exact ⟨fun rn => rfl, rfl⟩
  · rw [if_neg htok]
    cases hidx : gh.getFile name "index.html" with
    | none => exact ⟨fun rn => rfl, rfl⟩
    | some fe =>
      dsimp only
      cases hac : revAttachments env att with
      | error e => exact ⟨fun rn => rfl, rfl⟩
      | ok ac =>
        dsimp only
        cases hllm : env.llm (revisionPrompt fe.content brief ac) with
        | error e => exact ⟨fun rn => rfl, rfl⟩
        | ok raw =>
          dsimp only
          cases hp1 : gh.putFile name "index.html" (clean_llm_output raw)
              "Apply Round 2 revisions" (some fe.blobSha) with
          | error e =>
            refine ⟨fun rn => rfl, ?_⟩
            simp [generate_readme_trace, List.all_append, putsPath]
          | ok gh1 =>
            dsimp only
            have pres1 := putFile_preserves_other gh gh1 name "index.html"
              (clean_llm_output raw) "Apply Round 2 revisions" (some fe.blobSha) hp1
            cases hp2 : gh1.putFile name "README.md" (generate_readme env brief name).1
                "Update README.md" (Option.map (fun x => x.blobSha)
                  (gh1.getFile name "README.md")) with
            | error e =>
              refine ⟨fun rn => ?_, ?_⟩
              · simp [fileContent, pres1 rn "LICENSE" (by decide)]
              · simp [generate_readme_trace, List.all_append, putsPath]
            | ok gh2 =>
              dsimp only
              have pres2 := putFile_preserves_other gh1 gh2 name "README.md"
                (generate_readme env brief name).1 "Update README.md"
                (Option.map (fun x => x.blobSha) (gh1.getFile name "README.md")) hp2
              refine ⟨fun rn => ?_, ?_⟩
              · simp [fileContent, pres2 rn "LICENSE" (by decide),
                      pres1 rn "LICENSE" (by decide)]
              · simp [generate_readme_trace, List.all_append, putsPath]

/-- C9: on round 1, when repository creation and the three file commits
succeed but enabling static-site publishing fails, the deployment still
returns a Deploy Result (the Pages call was made, its failure only
logged), and the notification block still posts when an evaluation_url
is present. -/
theorem c9_pages_failure_nonfatal (env : Env) (gh : Gh) (dir name brief : String)
    (att : Option (List Attachment)) (td : TaskData) (url : String)
    (htok : (env.githubToken.getD "") ≠ "")
    (hnew : gh.getRepo name = none)
    (_hpages : env.pagesOk = false)
    (hurl : td.evaluation_url = some url) (hu : url ≠ "") :
    (deploy_to_github env gh dir name brief att).result.isSome = true ∧
    Call.ghPages name ∈ (deploy_to_github env gh dir name brief att).trace ∧
    ∀ di, (deploy_to_github env gh dir name brief att).result = some di →
      finalNotify td (some di) = some (url, buildNotification td di) := by
  have hcreate : ghCreateRepo gh name =
      .ok { gh with repos := updateAssoc gh.repos name ⟨[], []⟩ } := by
    unfold ghCreateRepo; rw [hnew]
  have hr1 : Gh.getRepo { gh with repos := updateAssoc gh.repos name ⟨[], []⟩ } name =
      some ⟨[], []⟩ := by
    unfold Gh.getRepo
    exact lookup_updateAssoc_self _ _ _
  obtain ⟨g2, hput1, hr2⟩ := putFile_new_ex
    { gh with repos := updateAssoc gh.repos name ⟨[], []⟩ } name "index.html"
    (generate_code env brief att).1 "Add index.html" ⟨[], []⟩ hr1 rfl
  obtain ⟨g3, hput2, hr3⟩ := putFile_new_ex g2 name "README.md"
    (generate_readme env brief name).1 "Add README.md" _ hr2 rfl
  obtain ⟨g4, hput3, hr4⟩ := putFile_new_ex g3 name "LICENSE"
    "MIT License" "Add LICENSE" _ hr3 rfl
  simp only [deploy_to_github]
  rw [if_neg htok]
  simp only [hcreate]
  simp only [hput1, hput2, hput3]
  refine ⟨rfl, ?_, ?_⟩
  · simp [generate_code_trace, generate_readme_trace]
  · intro di _
    simp only [finalNotify, hurl]
    rw [if_neg hu]

/-- Witness for C9 at a concrete world with failing Pages enablement. -/
theorem c9_pages_failure_witness :
    (deploy_to_github envPagesFail gh0 "output/demo-app" "demo-app" "b" none).result.isSome
      = true ∧
    Call.ghPages "demo-app" ∈
      (deploy_to_github envPagesFail gh0 "output/demo-app" "demo-app" "b" none).trace ∧
    ∀ di, (deploy_to_github envPagesFail gh0 "output/demo-app" "demo-app" "b" none).result
        = some di →
      finalNotify tdR2 (some di) =
        some ("http://eval.example/notify", buildNotification tdR2 di) :=
  c9_pages_failure_nonfatal envPagesFail gh0 "output/demo-app" "demo-app" "b" none tdR2
    "http://eval.example/notify" (by decide) rfl rfl rfl (by decide)

theorem run_round2_eq (env : Env) (gh : Gh) (td : TaskData) (name brief s : String)
    (htask : td.task = some name) (hname : name ≠ "")
    (hbrief : td.brief = some brief) (hb : brief ≠ "")
    (hround : td.round = some 2)
    (hsec : td.secret = some s) (hs : s ≠ "") (happ : env.appSecret = some s) :
    run_the_build_process env gh td =
      (match finalNotify td
          (handle_revision_and_deploy env gh ("output/" ++ name) name brief none).result with
       | some up =>
         ⟨(handle_revision_and_deploy env gh ("output/" ++ name) name brief none).result,
          some up.2,
          (handle_revision_and_deploy env gh ("output/" ++ name) name brief none).gh,
          (handle_revision_and_deploy env gh ("output/" ++ name) name brief none).trace
            ++ [Call.notify up.1 up.2]⟩
       | none =>
         ⟨(handle_revision_and_deploy env gh ("output/" ++ name) name brief none).result,
          none,
          (handle_revision_and_deploy env gh ("output/" ++ name) name brief none).gh,
          (handle_revision_and_deploy env gh ("output/" ++ name) name brief none).trace⟩) := by
  simp [run_the_build_process, htask, hbrief, hround, hsec, happ, strFalsy, hname, hb, hs]

theorem handle_notfound (env : Env) (gh : Gh) (dir name brief : String)
    (att : Option (List Attachment))
    (htok : (env.githubToken.getD "") ≠ "")
    (hnone : gh.getFile name "index.html" = none) :
    handle_revision_and_deploy env gh dir name brief att =
      ⟨none, gh, [Call.ghGet name "index.html"]⟩ := by
  simp only [handle_revision_and_deploy]
  rw [if_neg htok, hnone]

theorem handle_trace_head (env : Env) (gh : Gh) (dir name brief : String) (fe : FileEntry)
    (htok : (env.githubToken.getD "") ≠ "")
    (hfe : gh.getFile name "index.html" = some fe) :
    ∃ rest, (handle_revision_and_deploy env gh dir name brief none).trace =
      Call.ghGet name "index.html" :: Call.llm (revisionPrompt fe.content brief "") :: rest := by
  simp only [handle_revision_and_deploy]
  rw [if_neg htok, hfe]
  simp only [revAttachments]
  cases hllm : env.llm (revisionPrompt fe.content brief "") with
  | error e => exact ⟨[], rfl⟩
  | ok raw =>
    dsimp only
    cases hp1 : gh.putFile name "index.html" (clean_llm_output raw)
        "Apply Round 2 revisions" (some fe.blobSha) with
    | error e =>
      exact ⟨(generate_readme env brief name).2
               ++ [Call.ghPut name "index.html" "Apply Round 2 revisions"],
             by simp⟩
    | ok gh1 =>
      dsimp only
      cases hp2 : gh1.putFile name "README.md" (generate_readme env brief name).1
          "Update README.md"
          (Option.map (fun x => x.blobSha) (gh1.getFile name "README.md")) with
      | error e =>
        exact ⟨(generate_readme env brief name).2
                 ++ [Call.ghPut name "index.html" "Apply Round 2 revisions",
                     Call.ghGet name "README.md",
                     Call.ghPut name "README.md" "Update README.md"],
               by simp⟩
      | ok gh2 =>
        exact ⟨(generate_readme env brief name).2
                 ++ [Call.ghPut name "index.html" "Apply Round 2 revisions",
                     Call.ghGet name "README.md",
                     Call.ghPut name "README.md" "Update README.md",
                     Call.ghListCommits name],
               by simp⟩

set_option maxRecDepth 80000 in
/-- C5 counterexample: the attachments of the descriptor play no role in a
round-2 run — the run over a descriptor carrying an attachment is
identical, call for call, to the run over the same descriptor without
attachments, and the model is called with an empty attachments section,
contradicting that the generator is called with the attachments of the
descriptor. -/
theorem c5_attachments_counterexample :
    tdR2att.attachments = some [att1] ∧
    tdR2.attachments = none ∧
    run_the_build_process envOk ghR tdR2att = run_the_build_process envOk ghR tdR2 ∧
    Call.llm (revisionPrompt "OLD" "change it" "") ∈
      (run_the_build_process envOk ghR tdR2att).trace := by
  refine ⟨rfl, rfl, rfl, ?_⟩
  decide

/-- C5 amended: a valid round-2 run first fetches the current markup
document; when none exists the run fails with no Deploy Result, no
generator call, and an unchanged remote; when one exists, the generator
is called with the current document and the new brief, but with an empty
attachments section — the attachments of the descriptor are not forwarded. -/
theorem c5_amended_round2_flow (env : Env) (gh : Gh) (td : TaskData)
    (name brief s : String)
    (htask : td.task = some name) (hname : name ≠ "")
    (hbrief : td.brief = some brief) (hb : brief ≠ "")
    (hround : td.round = some 2)
    (hsec : td.secret = some s) (hs : s ≠ "") (happ : env.appSecret = some s)
    (htok : (env.githubToken.getD "") ≠ "") :
    (gh.getFile name "index.html" = none →
      run_the_build_process env gh td = ⟨none, none, gh, [Call.ghGet name "index.html"]⟩) ∧
    (∀ fe, gh.getFile name "index.html" = some fe →
      ∃ rest, (run_the_build_process env gh td).trace =
        Call.ghGet name "index.html" :: Call.llm (revisionPrompt fe.content brief "") :: rest) := by
  have hrun := run_round2_eq env gh td name brief s htask hname hbrief hb hround hsec hs happ
  constructor
  · intro hnone
    rw [hrun, handle_notfound env gh ("output/" ++ name) name brief none htok hnone]
    rfl
  · intro fe hfe
    obtain ⟨rest, hrest⟩ :=
      handle_trace_head env gh ("output/" ++ name) name brief fe htok hfe
    rw [hrun]
    cases hfn : finalNotify td
        (handle_revision_and_deploy env gh ("output/" ++ name) name brief none).result with
    | none => exact ⟨rest, hrest⟩
    | some up =>
      refine ⟨rest ++ [Call.notify up.1 up.2], ?_⟩
      dsimp only
      rw [hrest]
      simp

/-- Witness for the amended C5: with no prior document the concrete run
fails after the fetch alone; with a prior document the trace of the concrete
run starts with the fetch followed by the revision call carrying an
empty attachments section. -/
theorem c5_amended_witness :
    run_the_build_process envOk gh0 tdR2 =
      ⟨none, none, gh0, [Call.ghGet "demo-app" "index.html"]⟩ ∧
    ∃ rest, (run_the_build_process envOk ghR tdR2).trace =
      Call.ghGet "demo-app" "index.html" ::
        Call.llm (revisionPrompt "OLD" "change it" "") :: rest :=
  ⟨(c5_amended_round2_flow envOk gh0 tdR2 "demo-app" "change it" "s3cret"
      rfl (by decide) rfl (by decide) rfl rfl (by decide) rfl (by decide)).1 rfl,
   (c5_amended_round2_flow envOk ghR tdR2 "demo-app" "change it" "s3cret"
      rfl (by decide) rfl (by decide) rfl rfl (by decide) rfl (by decide)).2
     ⟨"OLD", "b0"⟩ rfl⟩

/-- C7: whenever a run posts a notification, the payload consists of
exactly the seven fields, with email, task, round and nonce taken
unchanged from the task descriptor and repo_url, commit_sha, pages_url
taken from the Deploy Result; such a run is necessarily a round-2 run,
so the round field of the descriptor is present (the round-defaulting case
never reaches the notifier). -/
theorem c7_payload_passthrough (env : Env) (gh : Gh) (td : TaskData) (p : Payload) :
    (run_the_build_process env gh td).notified = some p →
    ∃ di, (run_the_build_process env gh td).deploy = some di ∧
      p.email = td.email ∧ p.task = td.task ∧ p.round = td.round ∧ p.nonce = td.nonce ∧
      p.repo_url = some di.repo_url ∧ p.commit_sha = some di.commit_sha ∧
      p.pages_url = some di.pages_url ∧ td.round = some 2 := by
  simp only [run_the_build_process]
  split
  · intro h; simp at h
  · split
    · split
      · intro h; simp at h
      · intro h; simp at h
    · split
      · rename_i hne1 hr2
        split
        · intro h; simp at h
        · split
          · intro h; simp at h
          · split
            · rename_i up heq
              intro h
              simp only [Option.some.injEq] at h
              subst h
              unfold finalNotify at heq
              cases hd : (handle_revision_and_deploy env gh
                  ("output/" ++ td.task.getD "") (td.task.getD "") (td.brief.getD "")
                  none).result with
              | none => rw [hd] at heq; simp at heq
              | some di =>
                rw [hd] at heq
                dsimp only at heq
                cases hu : td.evaluation_url with
                | none => rw [hu] at heq; simp at heq
                | some url =>
                  rw [hu] at heq
                  dsimp only at heq
                  by_cases hue : url = ""
                  · rw [if_pos hue] at heq; simp at heq
                  · rw [if_neg hue] at heq
                    simp only [Option.some.injEq] at heq
                    subst heq
                    have hr : td.round = some 2 := by
                      cases htd : td.round with
                      | none => rw [htd] at hr2; simp at hr2
                      | some r =>
                        rw [htd] at hr2
                        simp only [Option.getD_some] at hr2
                        rw [hr2]
                    exact ⟨di, rfl, rfl, rfl, rfl, rfl, rfl, rfl, rfl, hr⟩
            · intro h; simp at h
      · intro h; simp at h

/-- Witness for C7: the concrete benign round-2 run posts, and its
payload is exactly the passthrough payload. -/
theorem c7_payload_witness :
    ∃ di, (run_the_build_process envOk ghR tdR2).deploy = some di ∧
      payloadR2.email = tdR2.email ∧ payloadR2.task = tdR2.task ∧
      payloadR2.round = tdR2.round ∧ payloadR2.nonce = tdR2.nonce ∧
      payloadR2.repo_url = some di.repo_url ∧ payloadR2.commit_sha = some di.commit_sha ∧
      payloadR2.pages_url = some di.pages_url ∧ tdR2.round = some 2 :=
  c7_payload_passthrough envOk ghR tdR2 payloadR2 rfl

end TDS
